import Mathlib

/-!
Verification of the otclient tile-map rendering pipeline snapshot:
a shallow embedding of `src/client/painter/mapviewpainter.cpp` and
`src/framework/graphics/ogl/painterogl.cpp`, with theorems settling the
frozen claims about tile visibility culling, the floor compositor loop,
and the OpenGL painter state machine.
-/

/-! ## Basic data types (client map model) -/

/-- Integer map coordinate (x, y, z); z is the floor index. -/
structure Position where
  x : Int
  y : Int
  z : Int
deriving DecidableEq

/-- Mirrors `Position::translated(dx, dy)`: shifts x and y, keeps z. -/
def Position.translated (p : Position) (dx dy : Int) : Position :=
  { p with x := p.x + dx, y := p.y + dy }

/-- Viewport in tile units: left/right/top/bottom tile counts around the camera. -/
structure AwareRange where
  left : Int
  right : Int
  top : Int
  bottom : Int
deriving DecidableEq

/-- Render-relevant attributes of a tile queried by the visibility filter. -/
structure Tile where
  position : Position
  hasWideThings : Bool
  hasTallThings : Bool
  hasDisplacement : Bool
  hasLight : Bool
deriving DecidableEq

/-- Light view as seen by the visibility filter: only its darkness flag matters. -/
structure LightView where
  isDark : Bool
deriving DecidableEq

/-- Wrap an integer into the int8 range, modelling the C++ narrowing
`const int8 dz = tilePos.z - cameraPosition.z` (mapviewpainter.cpp:227). -/
def int8ofInt (n : Int) : Int :=
  (n + 128) % 256 - 128

/-- Check position of a tile: the tile position projected by `(dz, dz)` where
`dz = tilePos.z - cameraPosition.z` narrowed to int8 (mapviewpainter.cpp:227-228). -/
def checkPosOf (tilePos cameraPosition : Position) : Position :=
  let dz := int8ofInt (tilePos.z - cameraPosition.z)
  tilePos.translated dz dz

namespace MapViewPainter

/-- Mirrors the short-circuit `lightView && lightView->isDark() && tile->hasLight()`
on mapviewpainter.cpp:222. -/
def lightForcesRender (lightView : Option LightView) (tile : Tile) : Bool :=
  match lightView with
  | some lv => lv.isDark && tile.hasLight
  | none => false

/-- Shallow embedding of `MapViewPainter::canRenderTile`
(mapviewpainter.cpp:220-243).  `drawViewportEdge` models
`mapView->m_drawViewportEdge`; the three culling guards are transcribed
condition for condition from lines 232, 235 and 238. -/
def canRenderTile (drawViewportEdge : Bool) (lightView : Option LightView)
    (cameraPosition : Position) (tile : Tile) (viewPort : AwareRange) : Bool :=
  if drawViewportEdge || lightForcesRender lightView tile then true
  else
    let checkPos := checkPosOf tile.position cameraPosition
    if (viewPort.left ≤ cameraPosition.x - checkPos.x) ∨
       (checkPos.x - cameraPosition.x = viewPort.right ∧
        tile.hasWideThings = false ∧ tile.hasDisplacement = false) then false
    else if (viewPort.top ≤ cameraPosition.y - checkPos.y) ∨
       (checkPos.y - cameraPosition.y = viewPort.bottom ∧
        tile.hasTallThings = false ∧ tile.hasDisplacement = false) then false
    else if (viewPort.right < checkPos.x - cameraPosition.x ∧
        (tile.hasWideThings = false ∨ tile.hasDisplacement = false)) ∨
       (viewPort.bottom < checkPos.y - cameraPosition.y) then false
    else true

end MapViewPainter

/-! ## Claims C1 and C2: viewport edge culling -/

/-- C1 counterexample: the claim says that at the exact right boundary a tile
missing either of the two flags is culled.  The code culls there only when both
flags are absent (mapviewpainter.cpp:232); a tile with wide things but no
displacement at the exact right boundary, otherwise within view, still renders. -/
theorem c1_counterexample :
    let cam : Position := ⟨0, 0, 7⟩
    let tile : Tile := ⟨⟨5, 0, 7⟩, true, false, false, false⟩
    let vp : AwareRange := ⟨6, 5, 6, 6⟩
    (checkPosOf tile.position cam).x - cam.x = vp.right ∧
    tile.hasWideThings = true ∧ tile.hasDisplacement = false ∧
    MapViewPainter.canRenderTile false none cam tile vp = true := by
  decide

/-- C1 amended: at the exact right viewport boundary, and otherwise within
view, `canRenderTile` returns true iff the tile has wide things OR
displacement; it returns false exactly when both flags are absent. -/
theorem c1_right_edge_amended (cam : Position) (tile : Tile) (vp : AwareRange)
    (hx : (checkPosOf tile.position cam).x - cam.x = vp.right)
    (hxl : cam.x - (checkPosOf tile.position cam).x < vp.left)
    (hyt : cam.y - (checkPosOf tile.position cam).y < vp.top)
    (hyb : (checkPosOf tile.position cam).y - cam.y < vp.bottom) :
    MapViewPainter.canRenderTile false none cam tile vp =
      (tile.hasWideThings || tile.hasDisplacement) := by
  simp only [MapViewPainter.canRenderTile, MapViewPainter.lightForcesRender,
    Bool.false_or, Bool.false_eq_true, if_false]
  split
  · rename_i h1
    rcases h1 with h1 | ⟨_, hw, hd⟩
    · omega
    · rw [hw, hd]; rfl
  · rename_i h1
    split
    · rename_i h2
      rcases h2 with h2 | ⟨h2, _⟩ <;> omega
    · split
      · rename_i h3
        rcases h3 with ⟨h3, _⟩ | h3 <;> omega
      · cases hw : tile.hasWideThings
        · cases hd : tile.hasDisplacement
          · exact absurd (Or.inr ⟨hx, hw, hd⟩) h1
          · rfl
        · rfl

/-- Witness for the amended C1 theorem at a concrete boundary tile. -/
theorem c1_right_edge_amended_witness :
    MapViewPainter.canRenderTile false none ⟨0, 0, 7⟩
      ⟨⟨5, 0, 7⟩, true, true, true, false⟩ ⟨6, 5, 6, 6⟩ = true :=
  c1_right_edge_amended ⟨0, 0, 7⟩ ⟨⟨5, 0, 7⟩, true, true, true, false⟩
    ⟨6, 5, 6, 6⟩ (by decide) (by decide) (by decide) (by decide)

/-- C2 counterexample: the claim says a tile at the left boundary survives when
it has a wide, tall, or displacement exception.  The code applies no exception
at the left/top boundary (mapviewpainter.cpp:232,235): a tile with all three
flags set, sitting exactly at the left boundary, is still culled. -/
theorem c2_counterexample :
    let cam : Position := ⟨10, 0, 7⟩
    let tile : Tile := ⟨⟨5, 0, 7⟩, true, true, true, false⟩
    let vp : AwareRange := ⟨5, 5, 5, 5⟩
    cam.x - (checkPosOf tile.position cam).x = vp.left ∧
    tile.hasWideThings = true ∧ tile.hasTallThings = true ∧
    tile.hasDisplacement = true ∧
    MapViewPainter.canRenderTile false none cam tile vp = false := by
  decide

/-- C2 amended: whenever the check position lies at or beyond the left or top
viewport boundary, `canRenderTile` returns false regardless of the wide, tall
and displacement flags (no exception applies on those two edges). -/
theorem c2_left_top_amended (cam : Position) (tile : Tile) (vp : AwareRange)
    (h : vp.left ≤ cam.x - (checkPosOf tile.position cam).x ∨
         vp.top ≤ cam.y - (checkPosOf tile.position cam).y) :
    MapViewPainter.canRenderTile false none cam tile vp = false := by
  simp only [MapViewPainter.canRenderTile, MapViewPainter.lightForcesRender,
    Bool.false_or, Bool.false_eq_true, if_false]
  rcases h with h | h
  · rw [if_pos (Or.inl h)]
  · split
    · rfl
    · rw [if_pos (Or.inl h)]

/-- Witness for the amended C2 theorem at a concrete left-boundary tile. -/
theorem c2_left_top_amended_witness :
    MapViewPainter.canRenderTile false none ⟨10, 0, 7⟩
      ⟨⟨5, 0, 7⟩, true, true, true, false⟩ ⟨5, 5, 5, 5⟩ = false :=
  c2_left_top_amended ⟨10, 0, 7⟩ ⟨⟨5, 0, 7⟩, true, true, true, false⟩
    ⟨5, 5, 5, 5⟩ (by decide)

/-! ## Floor compositor loop and frame drawing (mapviewpainter.cpp:37-160) -/

/-- Floors visited by the compositor loop
`for(int_fast8_t z = m_floorMax; z >= m_floorMin; --z)` (mapviewpainter.cpp:55),
in visit order. -/
def floorSequence (floorMax floorMin : Int) : List Int :=
  if floorMin ≤ floorMax then
    floorMax :: floorSequence (floorMax - 1) floorMin
  else []
termination_by (floorMax + 1 - floorMin).toNat
decreasing_by
  rename_i h
  omega

/-- Closed form of the compositor floor loop as a descending range map. -/
theorem floorSequence_eq_map (n : Nat) :
    ∀ floorMax floorMin : Int, (floorMax + 1 - floorMin).toNat = n →
      floorSequence floorMax floorMin =
        (List.range n).map (fun i : Nat => floorMax - (i : Int)) := by
  induction n with
  | zero =>
    intro fMax fMin h
    rw [floorSequence]
    rw [if_neg (by omega)]
    simp
  | succ n ih =>
    intro fMax fMin h
    rw [floorSequence, if_pos (by omega)]
    rw [List.range_succ_eq_map]
    simp only [List.map_cons, List.map_map, Nat.cast_zero, sub_zero]
    congr 1
    rw [ih (fMax - 1) fMin (by omega)]
    congr 1
    funext i
    simp only [Function.comp_apply, Nat.succ_eq_add_one]
    push_cast
    ring

/-- Logical drawing steps performed by `MapViewPainter::draw`, in program
order, abstracting the draw-pool and painter calls each step issues. -/
inductive DrawEvent
  | updateVisibleTilesCache
  | updateRectCache
  | shadePass (z : Int)
  | floorDrawingStart (z : Int)
  | drawGroundPass (z : Int)
  | drawBottomTopPass (z : Int)
  | drawMissiles (z : Int)
  | floorDrawingEnd (z : Int)
  | drawCrosshair
  | drawLightBuffer
  | drawCreatureInformation
  | drawText
deriving DecidableEq

/-- Inputs of one `MapViewPainter::draw` call: the map-view fields the function
reads, plus the results of the external draw-pool `drawUp` queries, treated as
oracles.  `cameraValid` models `mapView->getCameraPosition().isValid()`: the
camera position is read (mapviewpainter.cpp:51) and used for coordinates, but
its validity is never branched on — the guard on lines 150-152 is commented
out in this snapshot. -/
structure MapViewM where
  mustUpdateVisibleTilesCache : Bool
  rectChanged : Bool
  cameraValid : Bool
  drawLights : Bool
  floorMin : Int
  floorMax : Int
  crosshairVisible : Bool
  drawUpMap : Bool
  drawUpLight : Bool

namespace MapViewPainter

/-- Steps executed for one floor z of the compositor loop body
(mapviewpainter.cpp:56-108): the shade pre-pass for the floor above when
lighting is on, the start-of-floor hook, the ground pass, the bottom/top item
pass, the floor missiles, and the end-of-floor hook. -/
def floorBody (m : MapViewM) (z : Int) : List DrawEvent :=
  (if m.drawLights ∧ m.floorMin ≤ z - 1 then [DrawEvent.shadePass (z - 1)] else []) ++
  [DrawEvent.floorDrawingStart z, DrawEvent.drawGroundPass z,
   DrawEvent.drawBottomTopPass z, DrawEvent.drawMissiles z,
   DrawEvent.floorDrawingEnd z]

/-- Shallow embedding of `MapViewPainter::draw` (mapviewpainter.cpp:37-160) as
the ordered list of drawing steps it performs.  The cache updates (lines
40-49), the map draw-pool block with the floor loop and crosshair (lines
53-122), the light compositing block (lines 154-156) and the final
creature-information and text calls (lines 158-159) appear in program order.
No step is conditional on `cameraValid`: the validity guard (lines 150-152)
is commented out in the source. -/
def draw (m : MapViewM) : List DrawEvent :=
  (if m.mustUpdateVisibleTilesCache then [DrawEvent.updateVisibleTilesCache] else []) ++
  (if m.rectChanged then [DrawEvent.updateRectCache] else []) ++
  (if m.drawUpMap then
    (floorSequence m.floorMax m.floorMin).flatMap (floorBody m) ++
    (if m.crosshairVisible then [DrawEvent.drawCrosshair] else [])
   else []) ++
  (if m.drawLights ∧ m.drawUpLight then [DrawEvent.drawLightBuffer] else []) ++
  [DrawEvent.drawCreatureInformation, DrawEvent.drawText]

end MapViewPainter

/-- C9: for floor bounds floorMin ≤ floorMax, the compositor loop visits the
floors in strictly descending order and visits exactly the floors of the range
[floorMin, floorMax], each once (strict descent excludes repeats; the
membership characterisation excludes skips). -/
theorem c9_floor_loop_descending (floorMax floorMin : Int)
    (h : floorMin ≤ floorMax) :
    (floorSequence floorMax floorMin).Pairwise (· > ·) ∧
    (∀ z : Int, z ∈ floorSequence floorMax floorMin ↔
      floorMin ≤ z ∧ z ≤ floorMax) := by
  rw [floorSequence_eq_map (floorMax + 1 - floorMin).toNat floorMax floorMin rfl]
  constructor
  · refine List.Pairwise.map _ ?_ (List.pairwise_lt_range _)
    intro a b hab
    omega
  · intro z
    simp only [List.mem_map, List.mem_range]
    constructor
    · rintro ⟨i, hi, rfl⟩
      omega
    · intro hz
      exact ⟨(floorMax - z).toNat, by omega, by omega⟩

/-- Witness for C9 at floorMax = 7, floorMin = 0: the loop is the descending
list 7,6,...,0 in particular containing floor 0 and excluding floor 8. -/
theorem c9_floor_loop_descending_witness :
    (0 : Int) ∈ floorSequence 7 0 ∧ (8 : Int) ∉ floorSequence 7 0 :=
  ⟨((c9_floor_loop_descending 7 0 (by decide)).2 0).mpr (by decide),
   fun hmem => by
    have := ((c9_floor_loop_descending 7 0 (by decide)).2 8).mp hmem
    omega⟩

/-- Concrete frame input with an invalid camera position: the map draw pool
requests a rebuild, floors span 0..7, lighting and crosshair are off. -/
def frameWithInvalidCamera : MapViewM :=
  { mustUpdateVisibleTilesCache := false
    rectChanged := false
    cameraValid := false
    drawLights := false
    floorMin := 0
    floorMax := 7
    crosshairVisible := false
    drawUpMap := true
    drawUpLight := false }

/-- C3 divergence witness: with an invalid camera position, `draw` still
performs drawing — the frame is not skipped.  The camera-validity early return
(mapviewpainter.cpp:150-152) is commented out, so the ground pass of floor 7
is drawn and the event list is nonempty. -/
theorem c3_invalid_camera_still_draws :
    frameWithInvalidCamera.cameraValid = false ∧
    MapViewPainter.draw frameWithInvalidCamera ≠ [] ∧
    DrawEvent.drawGroundPass 7 ∈ MapViewPainter.draw frameWithInvalidCamera := by
  have hseq : floorSequence 7 0 = [7, 6, 5, 4, 3, 2, 1, 0] := by
    rw [floorSequence_eq_map 8 7 0 (by decide)]
    decide
  refine ⟨rfl, ?_, ?_⟩ <;>
    simp [MapViewPainter.draw, MapViewPainter.floorBody, frameWithInvalidCamera,
      hseq]

/-! ## Painter state machine (painterogl.cpp) -/

/-- Resolution in pixels. -/
structure Size where
  width : Int
  height : Int
deriving DecidableEq

/-- Rectangle given by its two corners, otclient-style (inclusive corners). -/
structure Rect where
  x1 : Int
  y1 : Int
  x2 : Int
  y2 : Int
deriving DecidableEq

/-- Modelled from the spec: `Rect::isValid` lives in the framework geometry
header (not under src/); a rect is valid when its corners are ordered, and the
default rect is invalid.  Used only to pick the scissor branch of
`updateGlClipRect` (painterogl.cpp:320). -/
def Rect.isValid (r : Rect) : Bool :=
  decide (r.x1 ≤ r.x2 ∧ r.y1 ≤ r.y2)

/-- Modelled from the spec: left edge accessor of the geometry header. -/
def Rect.left (r : Rect) : Int := r.x1

/-- Modelled from the spec: bottom edge accessor of the geometry header. -/
def Rect.bottom (r : Rect) : Int := r.y2

/-- Modelled from the spec: inclusive-corner width of the geometry header. -/
def Rect.width (r : Rect) : Int := r.x2 - r.x1 + 1

/-- Modelled from the spec: inclusive-corner height of the geometry header. -/
def Rect.height (r : Rect) : Int := r.y2 - r.y1 + 1

/-- RGBA color; the painter only stores and compares it. -/
structure Color where
  r : Nat
  g : Nat
  b : Nat
  a : Nat
deriving DecidableEq

/-- Three-by-three matrix over the rationals, entries listed in the row-major
order of the C++ brace initializers; models `Matrix3` with exact arithmetic in
place of `float`. -/
structure Matrix3 where
  m11 : ℚ
  m12 : ℚ
  m13 : ℚ
  m21 : ℚ
  m22 : ℚ
  m23 : ℚ
  m31 : ℚ
  m32 : ℚ
  m33 : ℚ
deriving DecidableEq

/-- Composition (blend) modes of the painter. -/
inductive CompositionMode
  | Normal
  | Multiply
  | Add
  | Replace
  | DestBlending
  | Light
deriving DecidableEq

/-- Blend equations of the painter. -/
inductive BlendEquation
  | Add
  | Max
  | Min
  | Subtract
  | Rever_Subtract
deriving DecidableEq

/-- Texture handle: `getId()` and `getTransformMatrix()` are all the painter
reads from it (painterogl.cpp:167-168). -/
structure Texture where
  id : Nat
  transformMatrix : Matrix3
deriving DecidableEq

/-- GL capabilities consulted by the painter (`g_graphics`). -/
structure Caps where
  canUseBlendFuncSeparate : Bool
  canUseBlendEquation : Bool
deriving DecidableEq

/-- Raw GL state-change calls issued by the painter, with the GL enum values
spelled as in the source. -/
inductive GlCall
  | glBlendFuncSeparate (srcRGB dstRGB srcAlpha dstAlpha : Nat)
  | glBlendFunc (src dst : Nat)
  | glBlendEquation (mode : Nat)
  | glEnableScissorTest
  | glDisableScissorTest
  | glScissor (x y w h : Int)
  | glBindTexture (id : Nat)
  | glColorMask (r g b a : Bool)
  | glViewport (x y w h : Int)
  | glClearColor (c : Color)
  | glClearColorBuffer
deriving DecidableEq

/-- Snapshot of the painter state pushed by `saveState`; the field list mirrors
`PainterOGL::PainterState` as used by getCurrentState/executeState
(painterogl.cpp:71-100). -/
structure PainterState where
  resolution : Size
  transformMatrix : Matrix3
  projectionMatrix : Matrix3
  textureMatrix : Matrix3
  color : Color
  opacity : ℚ
  compositionMode : CompositionMode
  blendEquation : BlendEquation
  clipRect : Rect
  shaderProgram : Option Nat
  texture : Option Texture
  alphaWriting : Bool
deriving DecidableEq

/-- The painter: current tracked state, the cached GL texture id, the bounded
snapshot array `m_olderStates[10]` with its index, and the transform-matrix
stack.  `isGlobalPainter` models the `g_painter == this` test of
setResolution (painterogl.cpp:212). -/
structure PainterOGL where
  isGlobalPainter : Bool
  resolution : Size
  transformMatrix : Matrix3
  projectionMatrix : Matrix3
  textureMatrix : Matrix3
  color : Color
  opacity : ℚ
  compositionMode : CompositionMode
  blendEquation : BlendEquation
  clipRect : Rect
  shaderProgram : Option Nat
  texture : Option Texture
  alphaWriting : Bool
  glTextureId : Nat
  olderStates : Nat → PainterState
  oldStateIndex : Nat
  transformMatrixStack : List Matrix3

/-- Runtime faults of the embedded painter: a failed `assert`, or an
out-of-bounds array access the source performs without any check. -/
inductive Fault
  | assertFailed
  | oobRead
deriving DecidableEq

namespace PainterOGL

/-- Modelled from the spec: `setColor` is declared in painterogl.h (not under
src/) as a tracked-field assignment. -/
def setColor (p : PainterOGL) (color : Color) : PainterOGL :=
  { p with color := color }

/-- Modelled from the spec: `setOpacity` is declared in painterogl.h (not
under src/) as a tracked-field assignment. -/
def setOpacity (p : PainterOGL) (opacity : ℚ) : PainterOGL :=
  { p with opacity := opacity }

/-- Modelled from the spec: `setShaderProgram` is declared in painterogl.h
(not under src/) as a tracked-field assignment. -/
def setShaderProgram (p : PainterOGL) (shaderProgram : Option Nat) : PainterOGL :=
  { p with shaderProgram := shaderProgram }

/-- Modelled from the spec: `setTransformMatrix` is declared in painterogl.h
(not under src/) as a tracked-field assignment. -/
def setTransformMatrix (p : PainterOGL) (transformMatrix : Matrix3) : PainterOGL :=
  { p with transformMatrix := transformMatrix }

/-- Modelled from the spec: `setTextureMatrix` is declared in painterogl.h
(not under src/) as a tracked-field assignment. -/
def setTextureMatrix (p : PainterOGL) (textureMatrix : Matrix3) : PainterOGL :=
  { p with textureMatrix := textureMatrix }

/-- Modelled from the spec: `setProjectionMatrix` is declared in painterogl.h
(not under src/) as a tracked-field assignment. -/
def setProjectionMatrix (p : PainterOGL) (projectionMatrix : Matrix3) : PainterOGL :=
  { p with projectionMatrix := projectionMatrix }

/-- GL calls of `PainterOGL::updateGlTexture` (painterogl.cpp:269-273). -/
def updateGlTexture (p : PainterOGL) : List GlCall :=
  if p.glTextureId ≠ 0 then [.glBindTexture p.glTextureId] else []

/-- GL calls of `PainterOGL::updateGlCompositionMode` (painterogl.cpp:275-300). -/
def updateGlCompositionMode (caps : Caps) (p : PainterOGL) : List GlCall :=
  match p.compositionMode with
  | .Normal =>
    if caps.canUseBlendFuncSeparate then [.glBlendFuncSeparate 0x0302 0x0303 1 1]
    else [.glBlendFunc 0x0302 0x0303]
  | .Multiply => [.glBlendFunc 0x0306 0x0303]
  | .Add => [.glBlendFunc 0x0301 0x0301]
  | .Replace => [.glBlendFunc 1 0]
  | .DestBlending => [.glBlendFunc 0x0305 0x0304]
  | .Light => [.glBlendFunc 0 0x0300]

/-- GL calls of `PainterOGL::updateGlBlendEquation` (painterogl.cpp:302-316). -/
def updateGlBlendEquation (caps : Caps) (p : PainterOGL) : List GlCall :=
  if caps.canUseBlendEquation = false then []
  else match p.blendEquation with
  | .Add => [.glBlendEquation 0x8006]
  | .Max => [.glBlendEquation 0x8008]
  | .Min => [.glBlendEquation 0x8007]
  | .Subtract => [.glBlendEquation 0x800A]
  | .Rever_Subtract => [.glBlendEquation 0x800B]

/-- GL calls of `PainterOGL::updateGlClipRect` (painterogl.cpp:318-327). -/
def updateGlClipRect (p : PainterOGL) : List GlCall :=
  if p.clipRect.isValid then
    [.glEnableScissorTest,
     .glScissor p.clipRect.left (p.resolution.height - p.clipRect.bottom - 1)
       p.clipRect.width p.clipRect.height]
  else
    [.glScissor 0 0 p.resolution.width p.resolution.height, .glDisableScissorTest]

/-- GL calls of `PainterOGL::updateGlAlphaWriting` (painterogl.cpp:329-335). -/
def updateGlAlphaWriting (p : PainterOGL) : List GlCall :=
  if p.alphaWriting then [.glColorMask true true true true]
  else [.glColorMask true true true false]

/-- GL calls of `PainterOGL::updateGlViewport` (painterogl.cpp:337-340). -/
def updateGlViewport (p : PainterOGL) : List GlCall :=
  [.glViewport 0 0 p.resolution.width p.resolution.height]

/-- `PainterOGL::setCompositionMode` (painterogl.cpp:134-140): no-op when the
mode is unchanged, otherwise store and issue the GL blend function change. -/
def setCompositionMode (caps : Caps) (p : PainterOGL)
    (compositionMode : CompositionMode) : PainterOGL × List GlCall :=
  if p.compositionMode = compositionMode then (p, [])
  else
    let p1 := { p with compositionMode := compositionMode }
    (p1, updateGlCompositionMode caps p1)

/-- `PainterOGL::setBlendEquation` (painterogl.cpp:142-148). -/
def setBlendEquation (caps : Caps) (p : PainterOGL)
    (blendEquation : BlendEquation) : PainterOGL × List GlCall :=
  if p.blendEquation = blendEquation then (p, [])
  else
    let p1 := { p with blendEquation := blendEquation }
    (p1, updateGlBlendEquation caps p1)

/-- `PainterOGL::setClipRect` (painterogl.cpp:150-156). -/
def setClipRect (p : PainterOGL) (clipRect : Rect) : PainterOGL × List GlCall :=
  if p.clipRect = clipRect then (p, [])
  else
    let p1 := { p with clipRect := clipRect }
    (p1, updateGlClipRect p1)

/-- `PainterOGL::setTexture` (painterogl.cpp:158-176): skip when the handle is
unchanged; otherwise store it, adopt the texture matrix of a non-null texture,
and rebind on the GL side only when the GL texture id actually changes. -/
def setTexture (p : PainterOGL) (texture : Option Texture) : PainterOGL × List GlCall :=
  if p.texture = texture then (p, [])
  else
    let p1 := { p with texture := texture }
    let glTextureId : Nat := match texture with | some t => t.id | none => 0
    let p2 := match texture with
      | some t => setTextureMatrix p1 t.transformMatrix
      | none => p1
    if p2.glTextureId ≠ glTextureId then
      let p3 := { p2 with glTextureId := glTextureId }
      (p3, updateGlTexture p3)
    else (p2, [])

/-- `PainterOGL::setAlphaWriting` (painterogl.cpp:178-185). -/
def setAlphaWriting (p : PainterOGL) (enable : Bool) : PainterOGL × List GlCall :=
  if p.alphaWriting = enable then (p, [])
  else
    let p1 := { p with alphaWriting := enable }
    (p1, updateGlAlphaWriting p1)

/-- `PainterOGL::setResolution` (painterogl.cpp:187-214): early-out when the
resolution is unchanged, else recompute the orthographic projection matrix
from the brace initializer on lines 205-207 and update the GL viewport when
this painter is the global one. -/
def setResolution (p : PainterOGL) (resolution : Size) : PainterOGL × List GlCall :=
  if resolution = p.resolution then (p, [])
  else
    let projectionMatrix : Matrix3 :=
      ⟨2 / (resolution.width : ℚ), 0, 0,
       0, -2 / (resolution.height : ℚ), 0,
       -1, 1, 1⟩
    let p1 := { p with resolution := resolution }
    let p2 := setProjectionMatrix p1 projectionMatrix
    (p2, if p2.isGlobalPainter then updateGlViewport p2 else [])

/-- `PainterOGL::getCurrentState` (painterogl.cpp:71-87).  The local
`PainterState state;` never has its `texture` member assigned by the function
(every other member is copied from the painter); the snapshot therefore keeps
the member's default.  Modelled from the spec: the default of the nullable
texture handle in painterogl.h (not under src/) is the null handle. -/
def getCurrentState (p : PainterOGL) : PainterState :=
  { resolution := p.resolution
    transformMatrix := p.transformMatrix
    projectionMatrix := p.projectionMatrix
    textureMatrix := p.textureMatrix
    color := p.color
    opacity := p.opacity
    compositionMode := p.compositionMode
    blendEquation := p.blendEquation
    clipRect := p.clipRect
    shaderProgram := p.shaderProgram
    alphaWriting := p.alphaWriting
    texture := none }

/-- `PainterOGL::executeState` (painterogl.cpp:89-100): replays a snapshot
through the setters, in source order, collecting the GL calls they issue. -/
def executeState (caps : Caps) (p : PainterOGL) (state : PainterState) :
    PainterOGL × List GlCall :=
  let p1 := setColor p state.color
  let p2 := setOpacity p1 state.opacity
  let r3 := setCompositionMode caps p2 state.compositionMode
  let r4 := setBlendEquation caps r3.1 state.blendEquation
  let r5 := setClipRect r4.1 state.clipRect
  let p6 := setShaderProgram r5.1 state.shaderProgram
  let r7 := setAlphaWriting p6 state.alphaWriting
  let p8 := setTransformMatrix r7.1 state.transformMatrix
  let r9 := setTexture p8 state.texture
  (r9.1, r3.2 ++ r4.2 ++ r5.2 ++ r7.2 ++ r9.2)

/-- `PainterOGL::saveState` (painterogl.cpp:64-69): `assert(m_oldStateIndex < 10)`,
then store the current state at the index and increment it.  A failed assert
is the `assertFailed` fault. -/
def saveState (p : PainterOGL) : Except Fault PainterOGL :=
  if p.oldStateIndex < 10 then
    .ok { p with
      olderStates := fun i =>
        if i = p.oldStateIndex then getCurrentState p else p.olderStates i
      oldStateIndex := p.oldStateIndex + 1 }
  else .error .assertFailed

/-- `PainterOGL::restoreSavedState` (painterogl.cpp:108-117): decrement
`m_oldStateIndex` and read `m_olderStates[m_oldStateIndex]` — the source
performs no check, so when the decremented index falls outside the
10-element array (underflow from 0, or an index past the end) the read is
out of bounds, modelled as the `oobRead` fault.  In bounds, it restores
resolution, transform and texture matrices, then replays the snapshot. -/
def restoreSavedState (caps : Caps) (p : PainterOGL) :
    Except Fault (PainterOGL × List GlCall) :=
  if 1 ≤ p.oldStateIndex ∧ p.oldStateIndex ≤ 10 then
    let idx := p.oldStateIndex - 1
    let state := p.olderStates idx
    let p1 := { p with oldStateIndex := idx }
    let r2 := setResolution p1 state.resolution
    let p3 := setTransformMatrix r2.1 state.transformMatrix
    let p4 := setTextureMatrix p3 state.textureMatrix
    let r5 := executeState caps p4 state
    .ok (r5.1, r2.2 ++ r5.2)
  else .error .oobRead

/-- `PainterOGL::clearRect` (painterogl.cpp:125-132): remember the clip rect,
clip to the target rect, clear, and restore the remembered clip rect. -/
def clearRect (p : PainterOGL) (color : Color) (rect : Rect) :
    PainterOGL × List GlCall :=
  let oldClipRect := p.clipRect
  let r1 := setClipRect p rect
  let r2 := setClipRect r1.1 oldClipRect
  (r2.1, r1.2 ++ [.glClearColor color, .glClearColorBuffer] ++ r2.2)

/-- `PainterOGL::pushTransformMatrix` (painterogl.cpp:256-260):
`push_back` the current transform, then `assert(size() < 100)` — the assert
runs after the push, so a push that brings the stack to 100 entries fails.
The vector's back is modelled as the list head. -/
def pushTransformMatrix (p : PainterOGL) : Except Fault PainterOGL :=
  let stack := p.transformMatrix :: p.transformMatrixStack
  if stack.length < 100 then .ok { p with transformMatrixStack := stack }
  else .error .assertFailed

/-- `PainterOGL::popTransformMatrix` (painterogl.cpp:262-267):
`assert(size() > 0)`, restore the transform from the back, `pop_back`. -/
def popTransformMatrix (p : PainterOGL) : Except Fault PainterOGL :=
  match p.transformMatrixStack with
  | [] => .error .assertFailed
  | m :: rest =>
    .ok (setTransformMatrix { p with transformMatrixStack := rest } m)

/-- Iterated `pushTransformMatrix`, stopping at the first fault. -/
def pushN : Nat → PainterOGL → Except Fault PainterOGL
  | 0, p => .ok p
  | n + 1, p => (pushTransformMatrix p).bind (pushN n)

/-- Iterated `popTransformMatrix`, stopping at the first fault. -/
def popN : Nat → PainterOGL → Except Fault PainterOGL
  | 0, p => .ok p
  | n + 1, p => (popTransformMatrix p).bind (popN n)

end PainterOGL

/-! ## Concrete painters used as evaluation inputs -/

/-- Identity matrix. -/
def matrixIdentity : Matrix3 := ⟨1, 0, 0, 0, 1, 0, 0, 0, 1⟩

/-- Default-constructed snapshot filling the untouched slots of
`m_olderStates`. -/
def defaultPainterState : PainterState :=
  { resolution := ⟨0, 0⟩
    transformMatrix := matrixIdentity
    projectionMatrix := matrixIdentity
    textureMatrix := matrixIdentity
    color := ⟨255, 255, 255, 255⟩
    opacity := 1
    compositionMode := .Normal
    blendEquation := .Add
    clipRect := ⟨0, 0, -1, -1⟩
    shaderProgram := none
    texture := none
    alphaWriting := false }

/-- Capabilities with both blend extensions available. -/
def capsAll : Caps := ⟨true, true⟩

/-- A texture handle with GL id 5. -/
def texture5 : Texture := ⟨5, matrixIdentity⟩

/-- A painter with a bound texture, an empty snapshot stack and an empty
transform-matrix stack. -/
def painterWithTexture : PainterOGL :=
  { isGlobalPainter := true
    resolution := ⟨800, 600⟩
    transformMatrix := matrixIdentity
    projectionMatrix := matrixIdentity
    textureMatrix := matrixIdentity
    color := ⟨255, 0, 0, 255⟩
    opacity := 1
    compositionMode := .Multiply
    blendEquation := .Max
    clipRect := ⟨1, 2, 30, 40⟩
    shaderProgram := none
    texture := some texture5
    alphaWriting := true
    glTextureId := 5
    olderStates := fun _ => defaultPainterState
    oldStateIndex := 0
    transformMatrixStack := [] }

/-- The same painter with all ten snapshot slots in use. -/
def painterFullStack : PainterOGL := { painterWithTexture with oldStateIndex := 10 }

/-! ## Claim C10: clearRect preserves the painter state -/

/-- C10: `clearRect` leaves the whole painter state — the clip rect and every
other tracked field — exactly as it was before the call: it temporarily clips
to the target rect and then restores the remembered clip rect
(painterogl.cpp:125-132). -/
theorem c10_clearRect_preserves_state (p : PainterOGL) (color : Color) (rect : Rect) :
    (PainterOGL.clearRect p color rect).1 = p := by
  by_cases h : p.clipRect = rect
  · simp [PainterOGL.clearRect, PainterOGL.setClipRect, h]
  · simp only [PainterOGL.clearRect, PainterOGL.setClipRect, if_neg h]
    rw [if_neg]
    exact fun hc => h hc.symm

/-! ## Claims C4 and C5: the snapshot stack -/

/-- Result of `saveState()` immediately followed by `restoreSavedState()` on
the concrete painter with a bound texture, when both calls succeed. -/
def savedRestored : Option PainterOGL :=
  match PainterOGL.saveState painterWithTexture with
  | .ok q =>
    match PainterOGL.restoreSavedState capsAll q with
    | .ok (r, _) => some r
    | .error _ => none
  | .error _ => none

/-- C4 divergence witness: after a save/restore round trip, every listed field
except the bound texture returns to its pre-save value, but the bound texture
is reset to the null handle — `getCurrentState` (painterogl.cpp:71-87) copies
every member except `state.texture`, and `executeState` (painterogl.cpp:99)
then restores the texture from that never-assigned member. -/
theorem c4_texture_clobbered :
    painterWithTexture.texture = some texture5 ∧
    Option.map (fun r => r.texture) savedRestored = some none ∧
    Option.map (fun r => r.color) savedRestored = some painterWithTexture.color ∧
    Option.map (fun r => r.opacity) savedRestored = some painterWithTexture.opacity ∧
    Option.map (fun r => r.compositionMode) savedRestored =
      some painterWithTexture.compositionMode ∧
    Option.map (fun r => r.blendEquation) savedRestored =
      some painterWithTexture.blendEquation ∧
    Option.map (fun r => r.clipRect) savedRestored = some painterWithTexture.clipRect ∧
    Option.map (fun r => r.transformMatrix) savedRestored =
      some painterWithTexture.transformMatrix := by
  exact ⟨rfl, rfl, rfl, rfl, rfl, rfl, rfl, rfl⟩

/-- C5 counterexample: the claim says restoring with no saved snapshot fails
via an assertion.  `restoreSavedState` (painterogl.cpp:108-117) contains no
assert at all: on an empty snapshot stack it decrements the index and reads
`m_olderStates[-1]`, an unchecked out-of-bounds read, not an assertion
failure. -/
theorem c5_counterexample :
    painterWithTexture.oldStateIndex = 0 ∧
    PainterOGL.restoreSavedState capsAll painterWithTexture =
      Except.error Fault.oobRead ∧
    Fault.oobRead ≠ Fault.assertFailed :=
  ⟨rfl, rfl, by decide⟩

/-- C5 amended: `saveState` on a full snapshot stack does fail its assertion
(painterogl.cpp:66), while `restoreSavedState` on an empty stack performs no
assertion check and instead runs into an out-of-bounds read of the snapshot
array. -/
theorem c5_stack_guards_amended (caps : Caps) (p : PainterOGL) :
    (10 ≤ p.oldStateIndex →
      PainterOGL.saveState p = Except.error Fault.assertFailed) ∧
    (p.oldStateIndex = 0 →
      PainterOGL.restoreSavedState caps p = Except.error Fault.oobRead) := by
  constructor
  · intro h
    unfold PainterOGL.saveState
    rw [if_neg (by omega)]
  · intro h
    unfold PainterOGL.restoreSavedState
    rw [if_neg (by omega)]

/-- Witness for the amended C5 theorem on the concrete painters with a full
and an empty snapshot stack. -/
theorem c5_stack_guards_amended_witness :
    PainterOGL.saveState painterFullStack = Except.error Fault.assertFailed ∧
    PainterOGL.restoreSavedState capsAll painterWithTexture =
      Except.error Fault.oobRead :=
  ⟨(c5_stack_guards_amended capsAll painterFullStack).1 (by decide),
   (c5_stack_guards_amended capsAll painterWithTexture).2 rfl⟩

/-! ## Claim C6: the transform-matrix stack -/

/-- Bind of a successful painter computation reduces to the continuation. -/
theorem bindOk {β : Type} (a : PainterOGL) (f : PainterOGL → Except Fault β) :
    (Except.ok a : Except Fault PainterOGL).bind f = f a := rfl

/-- A push on a stack holding at most 98 entries succeeds and conses the
current transform. -/
theorem pushTransformMatrix_ok (p : PainterOGL)
    (h : p.transformMatrixStack.length + 1 < 100) :
    PainterOGL.pushTransformMatrix p =
      .ok { p with transformMatrixStack :=
        p.transformMatrix :: p.transformMatrixStack } := by
  unfold PainterOGL.pushTransformMatrix
  rw [if_pos (by simpa using h)]

/-- Iterated pushes that stay under the capacity replicate the (unchanged)
current transform on the stack. -/
theorem pushN_ok (n : Nat) : ∀ p : PainterOGL,
    p.transformMatrixStack.length + n < 100 →
    PainterOGL.pushN n p = .ok { p with
      transformMatrixStack :=
        List.replicate n p.transformMatrix ++ p.transformMatrixStack } := by
  induction n with
  | zero => intro p _; rfl
  | succ n ih =>
    intro p h
    rw [PainterOGL.pushN, pushTransformMatrix_ok p (by omega), bindOk]
    rw [ih _ (by simp only [List.length_cons]; omega)]
    simp [List.replicate_succ']

/-- Iterated pushes fail with the capacity assertion as soon as the total
would reach 100 entries. -/
theorem pushN_fail (n : Nat) : ∀ p : PainterOGL,
    100 ≤ p.transformMatrixStack.length + n → 1 ≤ n →
    PainterOGL.pushN n p = .error Fault.assertFailed := by
  induction n with
  | zero => intro p _ h1; exact absurd h1 (by omega)
  | succ n ih =>
    intro p h _
    by_cases hlen : p.transformMatrixStack.length + 1 < 100
    · rw [PainterOGL.pushN, pushTransformMatrix_ok p hlen, bindOk]
      exact ih _ (by simp only [List.length_cons]; omega) (by omega)
    · rw [PainterOGL.pushN]
      have hp : PainterOGL.pushTransformMatrix p = .error Fault.assertFailed := by
        unfold PainterOGL.pushTransformMatrix
        rw [if_neg (by simp only [List.length_cons]; omega)]
      rw [hp]
      rfl

/-- A pop from a nonempty stack restores the head as the transform. -/
theorem popTransformMatrix_cons (p : PainterOGL) (m : Matrix3) (rest : List Matrix3)
    (h : p.transformMatrixStack = m :: rest) :
    PainterOGL.popTransformMatrix p =
      .ok { p with transformMatrix := m, transformMatrixStack := rest } := by
  unfold PainterOGL.popTransformMatrix
  rw [h]
  rfl

/-- Popping a stack of n copies of m (n ≥ 1) empties it and leaves m as the
current transform. -/
theorem popN_replicate (n : Nat) : ∀ (p : PainterOGL) (m : Matrix3), 1 ≤ n →
    p.transformMatrixStack = List.replicate n m →
    PainterOGL.popN n p =
      .ok { p with transformMatrix := m, transformMatrixStack := [] } := by
  induction n with
  | zero => intro p m h1 _; exact absurd h1 (by omega)
  | succ n ih =>
    intro p m _ h
    rw [PainterOGL.popN,
      popTransformMatrix_cons p m (List.replicate n m) (by rw [h]; rfl), bindOk]
    by_cases hn : 1 ≤ n
    · rw [ih _ m hn rfl]
    · have hz : n = 0 := by omega
      subst hz
      rfl

/-- C6 counterexample: the claim says 100 pushes from an empty stack succeed.
The capacity assert `assert(size() < 100)` runs after the `push_back`
(painterogl.cpp:258-259), so the 100th push already brings the stack to 100
entries and fails the assertion. -/
theorem c6_counterexample :
    painterWithTexture.transformMatrixStack = [] ∧
    PainterOGL.pushN 100 painterWithTexture = Except.error Fault.assertFailed :=
  ⟨rfl, pushN_fail 100 painterWithTexture (by decide) (by decide)⟩

/-- C6 amended: from an empty transform stack, 99 pushes followed by 99 pops
succeed and return the transform to its pre-push value, while the 100th push
fails the capacity assertion (the assert runs after the `push_back`, so the
usable capacity is 99). -/
theorem c6_transform_stack_amended (p : PainterOGL)
    (h : p.transformMatrixStack = []) :
    Except.map (fun r => r.transformMatrix)
        ((PainterOGL.pushN 99 p).bind (PainterOGL.popN 99)) =
      Except.ok p.transformMatrix ∧
    PainterOGL.pushN 100 p = Except.error Fault.assertFailed := by
  constructor
  · rw [pushN_ok 99 p (by rw [h]; decide), bindOk]
    rw [popN_replicate 99 _ p.transformMatrix (by decide)
      (by simp only [h, List.append_nil])]
    rfl
  · exact pushN_fail 100 p (by rw [h]; decide) (by decide)

/-- Witness for the amended C6 theorem on the concrete painter with an empty
transform stack. -/
theorem c6_transform_stack_amended_witness :
    Except.map (fun r => r.transformMatrix)
        ((PainterOGL.pushN 99 painterWithTexture).bind (PainterOGL.popN 99)) =
      Except.ok painterWithTexture.transformMatrix ∧
    PainterOGL.pushN 100 painterWithTexture = Except.error Fault.assertFailed :=
  c6_transform_stack_amended painterWithTexture rfl

/-! ## Claims C7 and C8: memoized setters and the projection matrix -/

/-- setCompositionMode with the stored mode is a complete no-op. -/
theorem setCompositionMode_skip (caps : Caps) (p : PainterOGL)
    (v : CompositionMode) (h : p.compositionMode = v) :
    PainterOGL.setCompositionMode caps p v = (p, []) := by
  unfold PainterOGL.setCompositionMode
  rw [if_pos h]

/-- setCompositionMode always stores its argument. -/
theorem setCompositionMode_stored (caps : Caps) (p : PainterOGL)
    (v : CompositionMode) :
    (PainterOGL.setCompositionMode caps p v).1.compositionMode = v := by
  unfold PainterOGL.setCompositionMode
  split
  · rename_i h; exact h
  · rfl

/-- setBlendEquation with the stored equation is a complete no-op. -/
theorem setBlendEquation_skip (caps : Caps) (p : PainterOGL)
    (v : BlendEquation) (h : p.blendEquation = v) :
    PainterOGL.setBlendEquation caps p v = (p, []) := by
  unfold PainterOGL.setBlendEquation
  rw [if_pos h]

/-- setBlendEquation always stores its argument. -/
theorem setBlendEquation_stored (caps : Caps) (p : PainterOGL)
    (v : BlendEquation) :
    (PainterOGL.setBlendEquation caps p v).1.blendEquation = v := by
  unfold PainterOGL.setBlendEquation
  split
  · rename_i h; exact h
  · rfl

/-- setClipRect with the stored clip rect is a complete no-op. -/
theorem setClipRect_skip (p : PainterOGL) (v : Rect) (h : p.clipRect = v) :
    PainterOGL.setClipRect p v = (p, []) := by
  unfold PainterOGL.setClipRect
  rw [if_pos h]

/-- setClipRect always stores its argument. -/
theorem setClipRect_stored (p : PainterOGL) (v : Rect) :
    (PainterOGL.setClipRect p v).1.clipRect = v := by
  unfold PainterOGL.setClipRect
  split
  · rename_i h; exact h
  · rfl

/-- setAlphaWriting with the stored flag is a complete no-op. -/
theorem setAlphaWriting_skip (p : PainterOGL) (v : Bool) (h : p.alphaWriting = v) :
    PainterOGL.setAlphaWriting p v = (p, []) := by
  unfold PainterOGL.setAlphaWriting
  rw [if_pos h]

/-- setAlphaWriting always stores its argument. -/
theorem setAlphaWriting_stored (p : PainterOGL) (v : Bool) :
    (PainterOGL.setAlphaWriting p v).1.alphaWriting = v := by
  unfold PainterOGL.setAlphaWriting
  split
  · rename_i h; exact h
  · rfl

/-- setTexture with the stored handle is a complete no-op. -/
theorem setTexture_skip (p : PainterOGL) (v : Option Texture) (h : p.texture = v) :
    PainterOGL.setTexture p v = (p, []) := by
  unfold PainterOGL.setTexture
  rw [if_pos h]

/-- setTexture always stores its argument. -/
theorem setTexture_stored (p : PainterOGL) (v : Option Texture) :
    (PainterOGL.setTexture p v).1.texture = v := by
  unfold PainterOGL.setTexture
  split
  · rename_i h; exact h
  · cases v <;>
      simp only [PainterOGL.setTextureMatrix] <;> split <;> rfl

/-- setResolution with the stored resolution is a complete no-op. -/
theorem setResolution_skip (p : PainterOGL) (v : Size) (h : v = p.resolution) :
    PainterOGL.setResolution p v = (p, []) := by
  unfold PainterOGL.setResolution
  rw [if_pos h]

/-- setResolution always stores its argument. -/
theorem setResolution_stored (p : PainterOGL) (v : Size) :
    (PainterOGL.setResolution p v).1.resolution = v := by
  unfold PainterOGL.setResolution
  split
  · rename_i h; exact h.symm
  · rfl

/-- C7: each of the six guarded setters — setCompositionMode, setBlendEquation,
setClipRect, setAlphaWriting, setTexture, setResolution — is a no-op issuing
no GL call when invoked with the currently stored value; after any call the
stored value equals the argument, so a second identical call in a row changes
nothing and issues no GL call (the GL update is issued at most once). -/
theorem c7_setters_memoized (caps : Caps) (p : PainterOGL) :
    (PainterOGL.setCompositionMode caps p p.compositionMode = (p, []) ∧
     ∀ v, (PainterOGL.setCompositionMode caps p v).1.compositionMode = v ∧
       PainterOGL.setCompositionMode caps
           (PainterOGL.setCompositionMode caps p v).1 v =
         ((PainterOGL.setCompositionMode caps p v).1, [])) ∧
    (PainterOGL.setBlendEquation caps p p.blendEquation = (p, []) ∧
     ∀ v, (PainterOGL.setBlendEquation caps p v).1.blendEquation = v ∧
       PainterOGL.setBlendEquation caps
           (PainterOGL.setBlendEquation caps p v).1 v =
         ((PainterOGL.setBlendEquation caps p v).1, [])) ∧
    (PainterOGL.setClipRect p p.clipRect = (p, []) ∧
     ∀ v, (PainterOGL.setClipRect p v).1.clipRect = v ∧
       PainterOGL.setClipRect (PainterOGL.setClipRect p v).1 v =
         ((PainterOGL.setClipRect p v).1, [])) ∧
    (PainterOGL.setAlphaWriting p p.alphaWriting = (p, []) ∧
     ∀ v, (PainterOGL.setAlphaWriting p v).1.alphaWriting = v ∧
       PainterOGL.setAlphaWriting (PainterOGL.setAlphaWriting p v).1 v =
         ((PainterOGL.setAlphaWriting p v).1, [])) ∧
    (PainterOGL.setTexture p p.texture = (p, []) ∧
     ∀ v, (PainterOGL.setTexture p v).1.texture = v ∧
       PainterOGL.setTexture (PainterOGL.setTexture p v).1 v =
         ((PainterOGL.setTexture p v).1, [])) ∧
    (PainterOGL.setResolution p p.resolution = (p, []) ∧
     ∀ v, (PainterOGL.setResolution p v).1.resolution = v ∧
       PainterOGL.setResolution (PainterOGL.setResolution p v).1 v =
         ((PainterOGL.setResolution p v).1, [])) :=
  ⟨⟨setCompositionMode_skip caps p _ rfl, fun v =>
      ⟨setCompositionMode_stored caps p v,
       setCompositionMode_skip caps _ v (setCompositionMode_stored caps p v)⟩⟩,
   ⟨setBlendEquation_skip caps p _ rfl, fun v =>
      ⟨setBlendEquation_stored caps p v,
       setBlendEquation_skip caps _ v (setBlendEquation_stored caps p v)⟩⟩,
   ⟨setClipRect_skip p _ rfl, fun v =>
      ⟨setClipRect_stored p v,
       setClipRect_skip _ v (setClipRect_stored p v)⟩⟩,
   ⟨setAlphaWriting_skip p _ rfl, fun v =>
      ⟨setAlphaWriting_stored p v,
       setAlphaWriting_skip _ v (setAlphaWriting_stored p v)⟩⟩,
   ⟨setTexture_skip p _ rfl, fun v =>
      ⟨setTexture_stored p v,
       setTexture_skip _ v (setTexture_stored p v)⟩⟩,
   ⟨setResolution_skip p _ rfl, fun v =>
      ⟨setResolution_stored p v,
       setResolution_skip _ v (setResolution_stored p v).symm⟩⟩⟩

/-- C8: for a resolution different from the stored one, setResolution sets the
projection matrix exactly to the row-major orthographic matrix
[[2/w, 0, 0], [0, -2/h, 0], [-1, 1, 1]] (painterogl.cpp:205-211), and called
with the stored resolution it recomputes nothing and changes nothing. -/
theorem c8_setResolution_projection (p : PainterOGL) (resolution : Size) :
    (resolution ≠ p.resolution →
      (PainterOGL.setResolution p resolution).1.projectionMatrix =
        ⟨2 / (resolution.width : ℚ), 0, 0,
         0, -2 / (resolution.height : ℚ), 0,
         -1, 1, 1⟩) ∧
    PainterOGL.setResolution p p.resolution = (p, []) := by
  constructor
  · intro h
    unfold PainterOGL.setResolution
    rw [if_neg h]
    rfl
  · exact setResolution_skip p p.resolution rfl

/-- Witness for C8 on the concrete painter at 800x600, resized to 640x480. -/
theorem c8_setResolution_projection_witness :
    (PainterOGL.setResolution painterWithTexture ⟨640, 480⟩).1.projectionMatrix =
      ⟨2 / ((640 : Int) : ℚ), 0, 0, 0, -2 / ((480 : Int) : ℚ), 0, -1, 1, 1⟩ ∧
    PainterOGL.setResolution painterWithTexture painterWithTexture.resolution =
      (painterWithTexture, []) :=
  ⟨(c8_setResolution_projection painterWithTexture ⟨640, 480⟩).1 (by decide),
   (c8_setResolution_projection painterWithTexture ⟨640, 480⟩).2⟩
